import Mathlib

/-!
Shallow embedding of the game-overlay lifecycle manager
(src/app/services/game-overlay/index.ts).

Modelling conventions:
* JavaScript numbers are modelled as exact rationals (ℚ); the opacity
  scaling factor 2.55 and the work-area halving are exact here.
* Nullable fields (position, overlay surface id) are modelled as Option.
* The Vuex-style mutations (SET_* methods tagged @mutation) are pure state
  updates; the service methods become functions from state to a pair of the
  new state and a list of externally observable effects (compositor calls,
  window-bounds updates, window show/hide/destroy).
* The JavaScript truthiness test `!overlayId` is true for both null and 0,
  which the model captures in idFalsy.
* async methods are modelled by their effect on the persisted state and by
  the list of calls they issue; the deferred tails of unawaited async
  callbacks (e.g. the preview-window hide() after an awaited compositor
  call) are kept in per-key order in the effect list.
-/

namespace GameOverlay

/-- 2-d coordinates, the IVec2 interface of the source. -/
structure IVec2 where
  x : ℚ
  y : ℚ
deriving DecidableEq

/-- The fixed set of overlay window keys used by the service: the keys of
the windows table as the source creates them (recentEvents first, chat
second). -/
inductive OverlayKey where
  | chat
  | recentEvents
deriving DecidableEq

/-- Per-key persisted window properties: `position: IVec2 | null` and the
overlay surface id returned by the compositor (`id: number | null`). -/
structure WindowProperties where
  position : Option IVec2
  id : Option Int
deriving DecidableEq

/-- The persisted GameOverlayState record of the source. The
windowProperties map is split into its two fixed entries. -/
structure GameOverlayState where
  isEnabled : Bool
  isShowing : Bool
  isPreviewEnabled : Bool
  previewMode : Bool
  opacity : ℚ
  chatProps : WindowProperties
  recentEventsProps : WindowProperties
deriving DecidableEq

/-- Lookup in the windowProperties map. -/
def GameOverlayState.winProps (s : GameOverlayState) : OverlayKey → WindowProperties
  | OverlayKey.chat => s.chatProps
  | OverlayKey.recentEvents => s.recentEventsProps

/-- Pointwise update of the windowProperties map. -/
def setWinProps (s : GameOverlayState) (key : OverlayKey) (w : WindowProperties) :
    GameOverlayState :=
  match key with
  | OverlayKey.chat => { s with chatProps := w }
  | OverlayKey.recentEvents => { s with recentEventsProps := w }

/-- GameOverlayService.defaultState from the source. -/
def defaultState : GameOverlayState where
  isEnabled := false
  isShowing := false
  isPreviewEnabled := true
  previewMode := false
  opacity := 100
  chatProps := { position := none, id := none }
  recentEventsProps := { position := none, id := none }

/-- Mutation SET_PREVIEW_ENABLED. -/
def SET_PREVIEW_ENABLED (s : GameOverlayState) (isEnabled : Bool) : GameOverlayState :=
  { s with isPreviewEnabled := isEnabled }

/-- Mutation TOGGLE_OVERLAY: sets isShowing to the given flag. -/
def TOGGLE_OVERLAY (s : GameOverlayState) (isShowing : Bool) : GameOverlayState :=
  { s with isShowing := isShowing }

/-- Mutation SET_ENABLED. -/
def SET_ENABLED (s : GameOverlayState) (shouldEnable : Bool) : GameOverlayState :=
  { s with isEnabled := shouldEnable }

/-- Mutation SET_PREVIEW_MODE. -/
def SET_PREVIEW_MODE (s : GameOverlayState) (previewMode : Bool) : GameOverlayState :=
  { s with previewMode := previewMode }

/-- Mutation SET_WINDOW_ID. -/
def SET_WINDOW_ID (s : GameOverlayState) (window : OverlayKey) (id : Int) :
    GameOverlayState :=
  setWinProps s window { s.winProps window with id := some id }

/-- Mutation SET_WINDOW_POSITION. -/
def SET_WINDOW_POSITION (s : GameOverlayState) (window : OverlayKey)
    (position : Option IVec2) : GameOverlayState :=
  setWinProps s window { s.winProps window with position := position }

/-- Mutation SET_OPACITY: stores the value as given, with no clamping. -/
def SET_OPACITY (s : GameOverlayState) (val : ℚ) : GameOverlayState :=
  { s with opacity := val }

/-- A rectangle as Electron reports it (display bounds / work area). -/
structure Bounds where
  x : ℚ
  y : ℚ
  width : ℚ
  height : ℚ
deriving DecidableEq

/-- An attached display: its full bounds and its work area. -/
structure Display where
  bounds : Bounds
  workArea : Bounds
deriving DecidableEq

/-- The find-predicate of determineStartPosition: the source tests the
saved position against display.bounds with strict inequalities
(intBounds and extBounds in the source). -/
def posInsideDisplayBounds (pos : IVec2) (d : Display) : Bool :=
  let bounds := d.bounds
  (decide (bounds.x < pos.x) && decide (bounds.y < pos.y)) &&
    (decide (pos.x < bounds.x + bounds.width) && decide (pos.y < bounds.y + bounds.height))

/-- getWindowContainerStartingPosition: both coordinates are derived from
the main-window display's workArea.height, exactly as the source computes
them. -/
def getWindowContainerStartingPosition (main : Display) : ℚ × ℚ :=
  (main.workArea.height / 2 + 200, main.workArea.height / 2 - 300)

/-- defaultPosition: recentEvents is offset 600 to the left of the
container anchor, every other key sits at the anchor. -/
def defaultPosition (main : Display) (key : OverlayKey) : IVec2 :=
  let c := getWindowContainerStartingPosition main
  let x := if key == OverlayKey.recentEvents then c.1 - 600 else c.1
  { x := x, y := c.2 }

/-- determineStartPosition: returns a saved position only when some
attached display's bounds strictly contain it; otherwise clears the stored
position and falls back to defaultPosition. -/
def determineStartPosition (displays : List Display) (main : Display)
    (s : GameOverlayState) (key : OverlayKey) : GameOverlayState × IVec2 :=
  match (s.winProps key).position with
  | some pos =>
    match displays.find? (fun d => posInsideDisplayBounds pos d) with
    | some _ => (s, pos)
    | none => (SET_WINDOW_POSITION s key none, defaultPosition main key)
  | none => (SET_WINDOW_POSITION s key none, defaultPosition main key)

/-- A second definition following the spec's words, for comparison with the
source's validity test: a position lies within a display's WORK AREA
(non-strict containment). The source instead tests display.bounds with
strict inequalities. -/
def specPosInWorkArea (pos : IVec2) (d : Display) : Bool :=
  let a := d.workArea
  (decide (a.x ≤ pos.x) && decide (a.y ≤ pos.y)) &&
    (decide (pos.x ≤ a.x + a.width) && decide (pos.y ≤ a.y + a.height))

/-- Per-key window size: chat 300×600, everything else 600×300
(the ternary at configureWindows and resetPosition). -/
structure WinSize where
  width : ℚ
  height : ℚ
deriving DecidableEq

/-- The size ternary of the source. -/
def overlaySize (key : OverlayKey) : WinSize :=
  if key == OverlayKey.chat then { width := 300, height := 600 }
  else { width := 600, height := 300 }

/-- Calls forwarded to the out-of-process compositor (the overlay module). -/
inductive CompositorCall where
  | callShow
  | callHide
  | callStop
  | addHWND (key : OverlayKey)
  | setPos (id : Option Int) (x y width height : ℚ)
  | setTransparency (id : Option Int) (value : ℚ)
deriving DecidableEq

/-- Externally observable effects of the service methods. -/
inductive Effect where
  | compositor (c : CompositorCall)
  | setSourceBounds (key : OverlayKey) (x y width height : ℚ)
  | setPreviewBounds (key : OverlayKey) (x y width height : ℚ)
  | showPreview (key : OverlayKey)
  | hidePreview (key : OverlayKey)
  | invalidateSource (key : OverlayKey)
  | destroySource (key : OverlayKey)
  | destroyPreview (key : OverlayKey)
  | unsubscribeReady
  | registerPaintHandler (key : OverlayKey)
  | setFrameRate (key : OverlayKey) (fps : ℚ)
deriving DecidableEq

/-- JavaScript truthiness of the stored overlay id: `!overlayId` holds for
null and for 0. -/
def idFalsy : Option Int → Bool
  | none => true
  | some v => v == 0

/-- One iteration of the resetPosition forEach: keys whose stored id is
falsy are skipped entirely (early return); otherwise the stored position is
cleared, the default bounds are applied to both windows of the pair and the
compositor geometry call is issued. -/
def resetPositionStep (main : Display) (acc : GameOverlayState × List Effect)
    (key : OverlayKey) : GameOverlayState × List Effect :=
  let s := acc.1
  let overlayId := (s.winProps key).id
  if idFalsy overlayId then acc
  else
    let s1 := SET_WINDOW_POSITION s key none
    let pos := defaultPosition main key
    let size := overlaySize key
    (s1, acc.2 ++
      [Effect.setSourceBounds key pos.x pos.y size.width size.height,
       Effect.setPreviewBounds key pos.x pos.y size.width size.height,
       Effect.compositor (CompositorCall.setPos overlayId pos.x pos.y size.width size.height)])

/-- resetPosition: iterates the step over the keys of the windows table. -/
def resetPosition (main : Display) (keys : List OverlayKey) (s : GameOverlayState) :
    GameOverlayState × List Effect :=
  keys.foldl (resetPositionStep main) (s, [])

/-- showOverlay: overlay.show(), TOGGLE_OVERLAY(true), then a forced
invalidate of every source window. -/
def showOverlay (keys : List OverlayKey) (s : GameOverlayState) :
    GameOverlayState × List Effect :=
  (TOGGLE_OVERLAY s true,
    Effect.compositor CompositorCall.callShow :: keys.map Effect.invalidateSource)

/-- hideOverlay: overlay.hide() then TOGGLE_OVERLAY(false). -/
def hideOverlay (s : GameOverlayState) : GameOverlayState × List Effect :=
  (TOGGLE_OVERLAY s false, [Effect.compositor CompositorCall.callHide])

/-- setOverlayOpacity: persists the raw percentage first; when disabled it
returns before any compositor call; when enabled it forwards
percentage * 2.55 for EVERY key of the windows table, passing whatever id
is stored (possibly null). -/
def setOverlayOpacity (keys : List OverlayKey) (percentage : ℚ)
    (s : GameOverlayState) : GameOverlayState × List Effect :=
  let s1 := SET_OPACITY s percentage
  if !s1.isEnabled then (s1, [])
  else
    (s1, keys.map fun key =>
      Effect.compositor
        (CompositorCall.setTransparency ((s1.winProps key).id) (percentage * 2.55)))

/-- The on-screen geometry of a preview window as read back by
win.getPosition() / win.getBounds() when leaving preview mode. -/
structure PreviewGeom where
  x : ℚ
  y : ℚ
  width : ℚ
  height : ℚ
deriving DecidableEq

/-- One iteration of the leaving-preview forEach of setPreviewMode: reads
the stored overlay id (possibly null), persists the preview window's
current position, forwards the geometry to the compositor (with the
possibly-null id) and hides the preview window. -/
def setPreviewModeExitStep (geom : OverlayKey → PreviewGeom)
    (acc : GameOverlayState × List Effect) (key : OverlayKey) :
    GameOverlayState × List Effect :=
  let s := acc.1
  let g := geom key
  let overlayId := (s.winProps key).id
  let s1 := SET_WINDOW_POSITION s key (some { x := g.x, y := g.y })
  (s1, acc.2 ++
    [Effect.compositor (CompositorCall.setPos overlayId g.x g.y g.width g.height),
     Effect.hidePreview key])

/-- setPreviewMode: hides the live overlay first when it is showing, then
returns early when the service is disabled (before persisting the flag);
otherwise persists previewMode and either shows every preview window or
runs the leaving-preview loop. -/
def setPreviewMode (geom : OverlayKey → PreviewGeom) (keys : List OverlayKey)
    (previewMode : Bool) (s : GameOverlayState) : GameOverlayState × List Effect :=
  let acc := if s.isShowing then hideOverlay s else (s, [])
  if !acc.1.isEnabled then acc
  else
    let s2 := SET_PREVIEW_MODE acc.1 previewMode
    if previewMode then (s2, acc.2 ++ keys.map Effect.showPreview)
    else keys.foldl (setPreviewModeExitStep geom) (s2, acc.2)

/-- The compositor thread status used by the toggleOverlay guard
(OverlayThreadStatus of the external overlay module; only Running is
distinguished by the source). -/
inductive OverlayThreadStatus where
  | Stopped
  | Running
deriving DecidableEq

/-- toggleOverlay: refused (no state change, no effect) unless the
compositor thread is running and the service is enabled; otherwise leaves
preview mode first when it is on, then toggles between hide and show. -/
def toggleOverlay (geom : OverlayKey → PreviewGeom) (keys : List OverlayKey)
    (status : OverlayThreadStatus) (s : GameOverlayState) :
    GameOverlayState × List Effect :=
  if !(status == OverlayThreadStatus.Running) || !s.isEnabled then (s, [])
  else
    let acc := if s.previewMode then setPreviewMode geom keys false s else (s, [])
    if acc.1.isShowing then
      let r := hideOverlay acc.1
      (r.1, acc.2 ++ r.2)
    else
      let r := showOverlay keys acc.1
      (r.1, acc.2 ++ r.2)

/-- destroyOverlay: when enabled it stops the compositor, unsubscribes the
readiness subscription when one exists, and destroys every source and
preview window; in every case it then forces previewMode and isShowing to
false. -/
def destroyOverlay (hasSub : Bool) (keys : List OverlayKey) (s : GameOverlayState) :
    GameOverlayState × List Effect :=
  let es : List Effect :=
    if s.isEnabled then
      Effect.compositor CompositorCall.callStop ::
        ((if hasSub then [Effect.unsubscribeReady] else []) ++
          keys.map Effect.destroySource ++ keys.map Effect.destroyPreview)
    else []
  (TOGGLE_OVERLAY (SET_PREVIEW_MODE s false) false, es)

/-- getPosition (private helper of the source): the persisted position when
there is one, else the window's current position. -/
def getPosition (s : GameOverlayState) (key : OverlayKey) (winPos : IVec2) : IVec2 :=
  match (s.winProps key).position with
  | some p => p
  | none => winPos

/-- createWindowOverlays: registers each source window with the compositor
in table order. When addHWND returns null or -1 the source hides the
overlay window and throws (the never-assigned overlayWindow field would
itself raise a TypeError first; either way an exception aborts the pass),
so no later key is registered. On success it stores the id, forwards
geometry and scaled opacity, installs the paint handler and throttles the
frame rate to 1 fps. The returned Option String is the raised error. -/
def createWindowOverlays (ids : OverlayKey → Option Int) (winPos : OverlayKey → IVec2)
    (winSize : OverlayKey → WinSize) :
    List OverlayKey → GameOverlayState → GameOverlayState × List Effect × Option String
  | [], s => (s, [], none)
  | key :: rest, s =>
    match ids key with
    | none => (s, [Effect.compositor (CompositorCall.addHWND key)],
        some "Error creating overlay")
    | some n =>
      if n == -1 then
        (s, [Effect.compositor (CompositorCall.addHWND key)],
          some "Error creating overlay")
      else
        let s1 := SET_WINDOW_ID s key n
        let pos := getPosition s1 key (winPos key)
        let size := winSize key
        let es1 : List Effect :=
          [Effect.compositor (CompositorCall.addHWND key),
           Effect.compositor (CompositorCall.setPos (some n) pos.x pos.y size.width size.height),
           Effect.compositor (CompositorCall.setTransparency (some n) (s1.opacity * 2.55)),
           Effect.registerPaintHandler key,
           Effect.setFrameRate key 1]
        let r := createWindowOverlays ids winPos winSize rest s1
        (r.1, es1 ++ r.2.1, r.2.2)

/-- The sentinel test of createWindowOverlays: an id is valid unless the
compositor returned null or -1. -/
def validOverlayId : Option Int → Bool
  | none => false
  | some n => !(n == -1)

/-- The fixed settling delay of the readiness pipeline (milliseconds). -/
def settlingDelayMs : Nat := 5000

/-- One execution of the initialize-then-register pipeline of
initializeOverlay: the keys present in the windows table when the
take(Object.keys(this.windows).length) / delay(5000) subscription is wired
(empty on the very first enable, both keys on any later one, and unchanged
by the time the subscription completes), and the ordered arrival times of
the did-finish-load readiness signals of the source windows. -/
structure InitExec where
  tableAtWiring : List OverlayKey
  signals : List Nat

/-- The argument of the take operator. -/
def InitExec.takeCount (e : InitExec) : Nat := e.tableAtWiring.length

/-- When the subscription's complete callback (createWindowOverlays) runs:
take(0) completes synchronously at subscription time (time 0); otherwise
take(n) completes with the n-th signal and the delay operator releases the
queued completion 5000 ms after that signal. None when fewer than n signals
ever arrive. -/
def InitExec.regTime (e : InitExec) : Option Nat :=
  if e.takeCount = 0 then some 0
  else (e.signals[e.takeCount - 1]?).map (fun t => t + settlingDelayMs)

/-- The keys registered by the createWindowOverlays pass: the windows table
at completion time, which equals the table at wiring time (on the first
enable the completion is synchronous, before any window is created; later
the table already holds both keys and never shrinks). -/
def InitExec.registeredKeys (e : InitExec) : List OverlayKey := e.tableAtWiring

/-- The public operations of claim C3's state machine. -/
inductive Op where
  | setPreview (b : Bool)
  | toggle (status : OverlayThreadStatus)
  | doShow
  | doHide
  | destroy
deriving DecidableEq

/-- State-level effect of one public operation. -/
def step (geom : OverlayKey → PreviewGeom) (keys : List OverlayKey) (hasSub : Bool)
    (s : GameOverlayState) : Op → GameOverlayState
  | Op.setPreview b => (setPreviewMode geom keys b s).1
  | Op.toggle status => (toggleOverlay geom keys status s).1
  | Op.doShow => (showOverlay keys s).1
  | Op.doHide => (hideOverlay s).1
  | Op.destroy => (destroyOverlay hasSub keys s).1

/-- Run a sequence of public operations. -/
def run (geom : OverlayKey → PreviewGeom) (keys : List OverlayKey) (hasSub : Bool)
    (s : GameOverlayState) (ops : List Op) : GameOverlayState :=
  ops.foldl (step geom keys hasSub) s

/-! ### Concrete fixtures used by counterexamples and witnesses -/

/-- The key order of the windows table as the source builds it:
recentEvents is assigned first, chat second. -/
def windowTableKeys : List OverlayKey := [OverlayKey.recentEvents, OverlayKey.chat]

/-- A 1920×1080 display whose work area loses 40 px to a taskbar. -/
def displayA : Display where
  bounds := { x := 0, y := 0, width := 1920, height := 1080 }
  workArea := { x := 0, y := 0, width := 1920, height := 1040 }

/-- A 100×100 display whose work area stops at y = 90. -/
def displayB : Display where
  bounds := { x := 0, y := 0, width := 100, height := 100 }
  workArea := { x := 0, y := 0, width := 100, height := 90 }

/-- The default persisted state with the service enabled. -/
def enabledState : GameOverlayState := { defaultState with isEnabled := true }

/-- Enabled state in which recentEvents is registered (surface id 7) and
chat is not registered yet. -/
def enabledHalfRegistered : GameOverlayState :=
  { defaultState with
    isEnabled := true
    recentEventsProps := { position := none, id := some 7 } }

/-- Disabled state with saved positions and no registered surface ids. -/
def savedUnregistered : GameOverlayState :=
  { defaultState with
    chatProps := { position := some { x := 1, y := 2 }, id := none }
    recentEventsProps := { position := some { x := 3, y := 4 }, id := none } }

/-- Disabled state that is currently showing the live overlay. -/
def showingDisabled : GameOverlayState := { defaultState with isShowing := true }

/-- Disabled state whose chat key has saved position (50, 95). -/
def savedChatPos : GameOverlayState :=
  { defaultState with chatProps := { position := some { x := 50, y := 95 }, id := none } }

/-- A fixed preview-window geometry environment. -/
def geomZero : OverlayKey → PreviewGeom := fun _ =>
  { x := 0, y := 0, width := 0, height := 0 }

/-! ### Helper lemmas on the state model -/

theorem setWinProps_isEnabled (s : GameOverlayState) (k : OverlayKey)
    (w : WindowProperties) : (setWinProps s k w).isEnabled = s.isEnabled := by
  cases k <;> rfl

theorem setWinProps_isShowing (s : GameOverlayState) (k : OverlayKey)
    (w : WindowProperties) : (setWinProps s k w).isShowing = s.isShowing := by
  cases k <;> rfl

theorem setWinProps_previewMode (s : GameOverlayState) (k : OverlayKey)
    (w : WindowProperties) : (setWinProps s k w).previewMode = s.previewMode := by
  cases k <;> rfl

theorem setWinProps_opacity (s : GameOverlayState) (k : OverlayKey)
    (w : WindowProperties) : (setWinProps s k w).opacity = s.opacity := by
  cases k <;> rfl

theorem winProps_setWinProps_self (s : GameOverlayState) (k : OverlayKey)
    (w : WindowProperties) : (setWinProps s k w).winProps k = w := by
  cases k <;> rfl

theorem winProps_setWinProps_ne (s : GameOverlayState) (k k' : OverlayKey)
    (w : WindowProperties) (h : k ≠ k') :
    (setWinProps s k' w).winProps k = s.winProps k := by
  cases k <;> cases k' <;> first | rfl | exact absurd rfl h

theorem winProps_SET_OPACITY (s : GameOverlayState) (p : ℚ) (k : OverlayKey) :
    (SET_OPACITY s p).winProps k = s.winProps k := by
  cases k <;> rfl

theorem SET_OPACITY_isEnabled (s : GameOverlayState) (p : ℚ) :
    (SET_OPACITY s p).isEnabled = s.isEnabled := rfl

theorem SET_OPACITY_opacity (s : GameOverlayState) (p : ℚ) :
    (SET_OPACITY s p).opacity = p := rfl

theorem winProps_SET_WINDOW_POSITION_self (s : GameOverlayState) (k : OverlayKey)
    (p : Option IVec2) : ((SET_WINDOW_POSITION s k p).winProps k).position = p := by
  cases k <;> rfl

theorem SET_WINDOW_POSITION_idem (s : GameOverlayState) (k : OverlayKey) :
    SET_WINDOW_POSITION (SET_WINDOW_POSITION s k none) k none =
      SET_WINDOW_POSITION s k none := by
  cases k <;> rfl

theorem resetPosition_fold_all_falsy (main : Display) :
    ∀ (keys : List OverlayKey) (s : GameOverlayState) (es : List Effect),
    (∀ k ∈ keys, idFalsy ((s.winProps k).id) = true) →
    keys.foldl (resetPositionStep main) (s, es) = (s, es) := by
  intro keys
  induction keys with
  | nil => intro s es _; rfl
  | cons key keys ih =>
    intro s es h
    have hstep : resetPositionStep main (s, es) key = (s, es) := by
      simp [resetPositionStep, h key (List.mem_cons_self key keys)]
    rw [List.foldl_cons, hstep]
    exact ih s es (fun k hk => h k (List.mem_cons_of_mem key hk))

theorem exitStep_flags (geom : OverlayKey → PreviewGeom)
    (acc : GameOverlayState × List Effect) (key : OverlayKey) :
    ((setPreviewModeExitStep geom acc key).1.previewMode = acc.1.previewMode) ∧
    ((setPreviewModeExitStep geom acc key).1.isShowing = acc.1.isShowing) ∧
    ((setPreviewModeExitStep geom acc key).1.isEnabled = acc.1.isEnabled) ∧
    ((setPreviewModeExitStep geom acc key).1.opacity = acc.1.opacity) := by
  cases key <;>
    exact ⟨rfl, rfl, rfl, rfl⟩

theorem exitFold_flags (geom : OverlayKey → PreviewGeom) :
    ∀ (keys : List OverlayKey) (acc : GameOverlayState × List Effect),
    ((keys.foldl (setPreviewModeExitStep geom) acc).1.previewMode = acc.1.previewMode) ∧
    ((keys.foldl (setPreviewModeExitStep geom) acc).1.isShowing = acc.1.isShowing) ∧
    ((keys.foldl (setPreviewModeExitStep geom) acc).1.isEnabled = acc.1.isEnabled) := by
  intro keys
  induction keys with
  | nil => exact fun acc => ⟨rfl, rfl, rfl⟩
  | cons key keys ih =>
    intro acc
    have hstep := exitStep_flags geom acc key
    have htail := ih (setPreviewModeExitStep geom acc key)
    exact ⟨htail.1.trans hstep.1, htail.2.1.trans hstep.2.1, htail.2.2.trans hstep.2.2.1⟩

theorem setPreviewMode_fst_flags (geom : OverlayKey → PreviewGeom)
    (keys : List OverlayKey) (b : Bool) (s : GameOverlayState) :
    ((setPreviewMode geom keys b s).1.isShowing = false) ∧
    ((setPreviewMode geom keys b s).1.previewMode =
      (if s.isEnabled then b else s.previewMode)) ∧
    ((setPreviewMode geom keys b s).1.isEnabled = s.isEnabled) := by
  unfold setPreviewMode
  cases hs : s.isShowing <;> cases he : s.isEnabled <;> cases b <;>
    simp [hideOverlay, TOGGLE_OVERLAY, SET_PREVIEW_MODE, hs, he, exitFold_flags]

/-- In a ≤-sorted list every element is at most the last one. -/
theorem sorted_le_last (l : List Nat) (h : l.Pairwise (· ≤ ·)) (x : Nat)
    (hx : x ∈ l) (y : Nat) (hy : l[l.length - 1]? = some y) : x ≤ y := by
  induction l with
  | nil => simp at hx
  | cons a tl ih =>
    rcases List.pairwise_cons.mp h with ⟨ha, htl⟩
    cases tl with
    | nil =>
      simp at hx hy
      omega
    | cons b tl' =>
      have hy' : (b :: tl')[(b :: tl').length - 1]? = some y := by
        simpa using hy
      rcases List.mem_cons.mp hx with rfl | hx'
      · exact ha y (List.getElem?_mem hy')
      · exact ih htl hx' hy'

/-! ### Claim C1 -/

/-- C1 counterexample: with both keys' overlaySurfaceId null (and saved
positions present), resetPosition leaves the state completely unchanged and
produces no effect at all — it does NOT clear the stored positions, does
NOT recompute defaults and does NOT re-apply bounds to either window,
contrary to the claim. -/
theorem C1_counterexample :
    resetPosition displayA windowTableKeys savedUnregistered =
      (savedUnregistered, []) ∧
    (savedUnregistered.winProps OverlayKey.chat).position = some { x := 1, y := 2 } ∧
    (savedUnregistered.winProps OverlayKey.chat).id = none :=
  ⟨rfl, rfl, rfl⟩

/-- C1 amended: for a key whose stored overlaySurfaceId is falsy (null or
0), the resetPosition iteration skips the key entirely — no compositor
geometry call, but also no clearing of the stored position and no
window-bounds update; only for a key with a truthy id does it clear the
position, re-apply the default bounds to both windows and re-communicate
the geometry to the compositor. -/
theorem C1_amended_resetPosition_skips_unregistered (main : Display)
    (s : GameOverlayState) (es : List Effect) (key : OverlayKey)
    (keys : List OverlayKey) :
    (idFalsy ((s.winProps key).id) = true →
      resetPositionStep main (s, es) key = (s, es)) ∧
    ((∀ k ∈ keys, idFalsy ((s.winProps k).id) = true) →
      resetPosition main keys s = (s, [])) ∧
    (∀ n : Int, (s.winProps key).id = some n → (n == 0) = false →
      resetPositionStep main (s, es) key =
        (SET_WINDOW_POSITION s key none,
         es ++
           [Effect.setSourceBounds key (defaultPosition main key).x
              (defaultPosition main key).y (overlaySize key).width
              (overlaySize key).height,
            Effect.setPreviewBounds key (defaultPosition main key).x
              (defaultPosition main key).y (overlaySize key).width
              (overlaySize key).height,
            Effect.compositor (CompositorCall.setPos (some n)
              (defaultPosition main key).x (defaultPosition main key).y
              (overlaySize key).width (overlaySize key).height)])) := by
  refine ⟨?_, ?_, ?_⟩
  · intro h
    simp [resetPositionStep, h]
  · intro h
    exact resetPosition_fold_all_falsy main keys s [] h
  · intro n hn h0
    simp [resetPositionStep, idFalsy, hn, h0]

/-! ### Claim C4 -/

/-- C4 counterexample: with the service enabled, recentEvents registered
(id 7) and chat unregistered (id null), setOverlayOpacity(50) issues a
compositor opacity call for BOTH keys — including the unregistered chat
key, with a null id — and the forwarded value is 50 × 2.55 = 127.5, which
is neither 127 nor 128. -/
theorem C4_counterexample :
    (setOverlayOpacity windowTableKeys 50 enabledHalfRegistered).1.opacity = 50 ∧
    (setOverlayOpacity windowTableKeys 50 enabledHalfRegistered).2 =
      [Effect.compositor (CompositorCall.setTransparency (some 7) ((50 : ℚ) * 2.55)),
       Effect.compositor (CompositorCall.setTransparency none ((50 : ℚ) * 2.55))] ∧
    (enabledHalfRegistered.winProps OverlayKey.chat).id = none ∧
    ((50 : ℚ) * 2.55 = 127.5) ∧ ((50 : ℚ) * 2.55 ≠ 127) ∧ ((50 : ℚ) * 2.55 ≠ 128) := by
  refine ⟨rfl, rfl, rfl, ?_, ?_, ?_⟩ <;> norm_num

/-- C4 amended: setOverlayOpacity(p) always persists opacity = p; when
disabled it makes no compositor call; when enabled it forwards the exact
unrounded value p × 2.55 for EVERY key of the windows table, passing the
stored surface id as is — a key whose id is not yet set gets the call with
a null id rather than being skipped. -/
theorem C4_amended_setOverlayOpacity (keys : List OverlayKey) (p : ℚ)
    (s : GameOverlayState) :
    (setOverlayOpacity keys p s).1.opacity = p ∧
    (setOverlayOpacity keys p s).1.isEnabled = s.isEnabled ∧
    (setOverlayOpacity keys p s).2 =
      (if s.isEnabled then
        keys.map (fun key => Effect.compositor
          (CompositorCall.setTransparency ((s.winProps key).id) (p * 2.55)))
       else []) := by
  refine ⟨?_, ?_, ?_⟩
  · cases hs : s.isEnabled <;>
      simp [setOverlayOpacity, SET_OPACITY_isEnabled, SET_OPACITY_opacity, hs]
  · cases hs : s.isEnabled <;>
      simp [setOverlayOpacity, SET_OPACITY_isEnabled, hs]
  · cases hs : s.isEnabled <;>
      simp [setOverlayOpacity, SET_OPACITY_isEnabled, hs, winProps_SET_OPACITY]

/-! ### Claim C5 -/

/-- C5 counterexample: setOverlayOpacity(150) persists opacity = 150,
outside [0,100], and forwards 150 × 2.55 = 382.5 to the compositor,
outside [0,255]: nothing clamps either value. -/
theorem C5_counterexample :
    (setOverlayOpacity [OverlayKey.recentEvents] 150 enabledHalfRegistered).1.opacity
      = 150 ∧
    ¬((150 : ℚ) ≤ 100) ∧
    (setOverlayOpacity [OverlayKey.recentEvents] 150 enabledHalfRegistered).2 =
      [Effect.compositor (CompositorCall.setTransparency (some 7) ((150 : ℚ) * 2.55))] ∧
    ((150 : ℚ) * 2.55 = 382.5) ∧ ¬((150 : ℚ) * 2.55 ≤ 255) := by
  refine ⟨rfl, ?_, rfl, ?_, ?_⟩ <;> norm_num

/-- C5 amended: the persisted opacity is exactly the argument (no
clamping), and every value the compositor receives equals p × 2.55, which
lies in [0,255] precisely when the argument lies in [0,100]; the bounds of
the claim hold only for arguments already in range. -/
theorem C5_amended_opacity_unclamped (keys : List OverlayKey) (p : ℚ)
    (s : GameOverlayState) :
    (setOverlayOpacity keys p s).1.opacity = p ∧
    (∀ oid v, Effect.compositor (CompositorCall.setTransparency oid v) ∈
        (setOverlayOpacity keys p s).2 →
      v = p * 2.55 ∧ ((0 ≤ v ∧ v ≤ 255) ↔ (0 ≤ p ∧ p ≤ 100))) := by
  constructor
  · cases hs : s.isEnabled <;>
      simp [setOverlayOpacity, SET_OPACITY_isEnabled, SET_OPACITY_opacity, hs]
  · intro oid v hmem
    have hv : v = p * 2.55 := by
      cases hs : s.isEnabled <;>
        simp [setOverlayOpacity, SET_OPACITY_isEnabled, hs] at hmem
      obtain ⟨a, ha, h1, h2⟩ := hmem
      exact h2.symm
    refine ⟨hv, ?_⟩
    subst hv
    constructor
    · rintro ⟨h1, h2⟩
      constructor <;> nlinarith
    · rintro ⟨h1, h2⟩
      constructor <;> nlinarith

/-! ### Claim C6 -/

/-- C6: when the compositor thread status is not Running, or the service is
disabled, toggleOverlay leaves the entire persisted state unchanged and
issues no effect at all (in particular no compositor show/hide call). -/
theorem C6_toggleOverlay_noop (geom : OverlayKey → PreviewGeom)
    (keys : List OverlayKey) (status : OverlayThreadStatus) (s : GameOverlayState)
    (h : status ≠ OverlayThreadStatus.Running ∨ s.isEnabled = false) :
    toggleOverlay geom keys status s = (s, []) := by
  unfold toggleOverlay
  rcases h with h | h
  · have hb : (status == OverlayThreadStatus.Running) = false := by
      cases status
      · rfl
      · exact absurd rfl h
    simp [hb]
  · simp [h]

/-- C6 witness: a concrete run with the compositor stopped and the service
enabled. -/
theorem C6_toggleOverlay_noop_witness :
    toggleOverlay geomZero windowTableKeys OverlayThreadStatus.Stopped enabledState =
      (enabledState, []) :=
  C6_toggleOverlay_noop geomZero windowTableKeys OverlayThreadStatus.Stopped
    enabledState (Or.inl (by decide))

/-! ### Claim C9 -/

/-- C9: destroyOverlay always leaves previewMode = false and
isShowing = false, preserves every other persisted field, and when the
service is disabled it performs no compositor stop, no unsubscription and
no window destruction (no effect at all) while still resetting both
flags. -/
theorem C9_destroyOverlay_resets_flags (hasSub : Bool) (keys : List OverlayKey)
    (s : GameOverlayState) :
    (destroyOverlay hasSub keys s).1.previewMode = false ∧
    (destroyOverlay hasSub keys s).1.isShowing = false ∧
    (destroyOverlay hasSub keys s).1.isEnabled = s.isEnabled ∧
    (destroyOverlay hasSub keys s).1.isPreviewEnabled = s.isPreviewEnabled ∧
    (destroyOverlay hasSub keys s).1.opacity = s.opacity ∧
    (destroyOverlay hasSub keys s).1.chatProps = s.chatProps ∧
    (destroyOverlay hasSub keys s).1.recentEventsProps = s.recentEventsProps ∧
    (s.isEnabled = false → (destroyOverlay hasSub keys s).2 = []) := by
  refine ⟨rfl, rfl, rfl, rfl, rfl, rfl, rfl, fun h => ?_⟩
  simp [destroyOverlay, h]

/-! ### Claim C10 -/

/-- C10: calling setPreviewMode with any flag while the service is disabled
never changes previewMode (the method returns before persisting the flag)
and never touches the stored window properties, but when the overlay was
showing it still hides it first, leaving isShowing = false; the only effect
is the compositor hide call, and only when the overlay was showing. -/
theorem C10_setPreviewMode_disabled (geom : OverlayKey → PreviewGeom)
    (keys : List OverlayKey) (b : Bool) (s : GameOverlayState)
    (h : s.isEnabled = false) :
    (setPreviewMode geom keys b s).1.previewMode = s.previewMode ∧
    (setPreviewMode geom keys b s).1.isShowing = false ∧
    (setPreviewMode geom keys b s).1.chatProps = s.chatProps ∧
    (setPreviewMode geom keys b s).1.recentEventsProps = s.recentEventsProps ∧
    (setPreviewMode geom keys b s).2 =
      (if s.isShowing then [Effect.compositor CompositorCall.callHide] else []) := by
  unfold setPreviewMode
  cases hs : s.isShowing <;> simp [hideOverlay, TOGGLE_OVERLAY, h, hs]

/-- C10 witness: a concrete run from a disabled state that is showing the
live overlay: previewMode stays false, the overlay is hidden. -/
theorem C10_setPreviewMode_disabled_witness :
    (setPreviewMode geomZero windowTableKeys true showingDisabled).1.previewMode =
      showingDisabled.previewMode ∧
    (setPreviewMode geomZero windowTableKeys true showingDisabled).1.isShowing = false ∧
    (setPreviewMode geomZero windowTableKeys true showingDisabled).1.chatProps =
      showingDisabled.chatProps ∧
    (setPreviewMode geomZero windowTableKeys true showingDisabled).1.recentEventsProps =
      showingDisabled.recentEventsProps ∧
    (setPreviewMode geomZero windowTableKeys true showingDisabled).2 =
      [Effect.compositor CompositorCall.callHide] :=
  C10_setPreviewMode_disabled geomZero windowTableKeys true showingDisabled rfl

/-! ### Claim C3 -/

/-- C3 counterexample: from the enabled default state — which satisfies the
mutual exclusion — entering preview mode and then calling showOverlay()
directly reaches a state with previewMode = true AND isShowing = true:
showOverlay sets isShowing without clearing previewMode, so the public
operations do not preserve the claimed invariant. -/
theorem C3_counterexample :
    (enabledState.previewMode && enabledState.isShowing) = false ∧
    (run geomZero windowTableKeys false enabledState
      [Op.setPreview true, Op.doShow]).previewMode = true ∧
    (run geomZero windowTableKeys false enabledState
      [Op.setPreview true, Op.doShow]).isShowing = true :=
  ⟨rfl, rfl, rfl⟩

/-- C3 amended: mutual exclusion of previewMode and isShowing is preserved
by setPreviewMode, toggleOverlay, hideOverlay and destroyOverlay, and by
showOverlay only when previewMode is off — calling showOverlay directly in
preview mode violates it; entering preview mode always leaves
isShowing = false. -/
theorem C3_amended_mutual_exclusion (geom : OverlayKey → PreviewGeom)
    (keys : List OverlayKey) (hasSub : Bool) (s : GameOverlayState) (op : Op)
    (hinv : (s.previewMode && s.isShowing) = false)
    (hop : op = Op.doShow → s.previewMode = false) :
    ((step geom keys hasSub s op).previewMode &&
      (step geom keys hasSub s op).isShowing) = false ∧
    (setPreviewMode geom keys true s).1.isShowing = false := by
  refine ⟨?_, (setPreviewMode_fst_flags geom keys true s).1⟩
  cases op with
  | setPreview b =>
    have h := (setPreviewMode_fst_flags geom keys b s).1
    simp [step, h]
  | toggle status =>
    cases hg : (!(status == OverlayThreadStatus.Running) || !s.isEnabled) with
    | true =>
      have hstep : step geom keys hasSub s (Op.toggle status) = s := by
        simp [step, toggleOverlay, hg]
      rw [hstep]
      exact hinv
    | false =>
      have he : s.isEnabled = true := by
        cases hE : s.isEnabled
        · rw [hE] at hg
          simp at hg
        · rfl
      cases hp : s.previewMode with
      | false =>
        cases hs : s.isShowing with
        | false =>
          have hstep : step geom keys hasSub s (Op.toggle status) =
              TOGGLE_OVERLAY s true := by
            simp [step, toggleOverlay, hg, hp, hs, showOverlay]
          rw [hstep]
          show (s.previewMode && true) = false
          rw [hp]
          rfl
        | true =>
          have hstep : step geom keys hasSub s (Op.toggle status) =
              TOGGLE_OVERLAY s false := by
            simp [step, toggleOverlay, hg, hp, hs, hideOverlay]
          rw [hstep]
          show (s.previewMode && false) = false
          exact Bool.and_false _
      | true =>
        have hflags := setPreviewMode_fst_flags geom keys false s
        have hstep : step geom keys hasSub s (Op.toggle status) =
            TOGGLE_OVERLAY (setPreviewMode geom keys false s).1 true := by
          simp [step, toggleOverlay, hg, hp, hflags.1, showOverlay]
        rw [hstep]
        show ((setPreviewMode geom keys false s).1.previewMode && true) = false
        rw [hflags.2.1, he]
        rfl
  | doShow =>
    have hpm := hop rfl
    show ((TOGGLE_OVERLAY s true).previewMode && (TOGGLE_OVERLAY s true).isShowing) = false
    show (s.previewMode && true) = false
    rw [hpm]
    rfl
  | doHide =>
    show (s.previewMode && false) = false
    exact Bool.and_false _
  | destroy =>
    rfl

/-- C3 amended witness: a concrete preserved step (hideOverlay from the
enabled default state) and the concrete entering-preview fact. -/
theorem C3_amended_mutual_exclusion_witness :
    ((step geomZero windowTableKeys false enabledState Op.doHide).previewMode &&
      (step geomZero windowTableKeys false enabledState Op.doHide).isShowing) = false ∧
    (setPreviewMode geomZero windowTableKeys true enabledState).1.isShowing = false :=
  C3_amended_mutual_exclusion geomZero windowTableKeys false enabledState Op.doHide
    rfl (by decide)

/-! ### Claim C2 -/

/-- C2: for every execution of the initialize-then-register pipeline, every
key registered in the createWindowOverlays pass is registered no earlier
than every source window's readiness signal plus the fixed 5-second
settling delay: the take(n)/delay(5000) subscription completes 5000 ms
after the n-th signal, and on the degenerate take(0) first run no key is
registered at all. -/
theorem C2_registration_after_settling (e : InitExec) (t ts : Nat) (k : OverlayKey)
    (hsorted : e.signals.Pairwise (· ≤ ·))
    (hcover : e.tableAtWiring = [] ∨ e.signals.length = e.takeCount)
    (hreg : e.regTime = some t)
    (hk : k ∈ e.registeredKeys)
    (hts : ts ∈ e.signals) :
    ts + settlingDelayMs ≤ t := by
  rcases hcover with h0 | hlen
  · rw [InitExec.registeredKeys, h0] at hk
    simp at hk
  · have hne : e.takeCount ≠ 0 := by
      intro hz
      rw [InitExec.takeCount] at hz
      rw [InitExec.registeredKeys, List.length_eq_zero.mp hz] at hk
      simp at hk
    rw [InitExec.regTime, if_neg hne] at hreg
    obtain ⟨y, hy, hty⟩ := Option.map_eq_some'.mp hreg
    have hidx : e.signals[e.signals.length - 1]? = some y := by
      rw [hlen]
      exact hy
    have hle := sorted_le_last e.signals hsorted ts hts y hidx
    omega

/-- C2 witness: a re-enable run with both keys in the table and readiness
signals at 100 ms and 200 ms: registration happens at 5200 ms, at least
5000 ms after the first signal. -/
theorem C2_registration_after_settling_witness :
    (100 : Nat) + settlingDelayMs ≤ 5200 :=
  C2_registration_after_settling
    { tableAtWiring := [OverlayKey.recentEvents, OverlayKey.chat],
      signals := [100, 200] }
    5200 100 OverlayKey.recentEvents (by decide) (Or.inr rfl) rfl
    (List.Mem.head _) (List.Mem.head _)

/-! ### Claim C7 -/

/-- C7 counterexample: position (50, 95) on displayB lies inside the
display's bounds but outside its work area (which stops at y = 90);
determineStartPosition nevertheless accepts it — it returns the saved
position unchanged and does not clear the stored position — so the
validation is NOT against the work area as claimed. -/
theorem C7_counterexample :
    specPosInWorkArea { x := 50, y := 95 } displayB = false ∧
    determineStartPosition [displayB] displayB savedChatPos OverlayKey.chat =
      (savedChatPos, { x := 50, y := 95 }) ∧
    (savedChatPos.winProps OverlayKey.chat).position = some { x := 50, y := 95 } := by
  refine ⟨?_, ?_, rfl⟩
  · norm_num [specPosInWorkArea, displayB]
  · have h : posInsideDisplayBounds { x := 50, y := 95 } displayB = true := by
      norm_num [posInsideDisplayBounds, displayB]
    simp [determineStartPosition, savedChatPos, defaultState,
      GameOverlayState.winProps, h]

/-- C7 amended: determineStartPosition accepts a saved position exactly
when some attached display's BOUNDS strictly contain it (the source checks
display.bounds with strict inequalities, not the work area); when the
position is invalid or absent it clears the stored position and returns the
key's deterministic default (recentEvents 600 left of the container anchor,
chat at the anchor, both derived from the main display's work-area height),
and on the cleared state a second call yields the same default. -/
theorem C7_amended_determineStartPosition (displays : List Display) (main : Display)
    (s : GameOverlayState) (key : OverlayKey) :
    (∀ pos, (s.winProps key).position = some pos →
      ((∃ d ∈ displays, posInsideDisplayBounds pos d = true) →
        determineStartPosition displays main s key = (s, pos)) ∧
      ((∀ d ∈ displays, posInsideDisplayBounds pos d = false) →
        determineStartPosition displays main s key =
          (SET_WINDOW_POSITION s key none, defaultPosition main key))) ∧
    ((s.winProps key).position = none →
      determineStartPosition displays main s key =
        (SET_WINDOW_POSITION s key none, defaultPosition main key)) ∧
    determineStartPosition displays main (SET_WINDOW_POSITION s key none) key =
      (SET_WINDOW_POSITION s key none, defaultPosition main key) ∧
    (defaultPosition main OverlayKey.recentEvents).x =
      (getWindowContainerStartingPosition main).1 - 600 ∧
    (defaultPosition main OverlayKey.chat).x =
      (getWindowContainerStartingPosition main).1 ∧
    (defaultPosition main OverlayKey.recentEvents).y =
      (getWindowContainerStartingPosition main).2 ∧
    (defaultPosition main OverlayKey.chat).y =
      (getWindowContainerStartingPosition main).2 := by
  refine ⟨?_, ?_, ?_, rfl, rfl, rfl, rfl⟩
  · intro pos hpos
    constructor
    · rintro ⟨d, hd, hdp⟩
      cases hf : displays.find? (fun d => posInsideDisplayBounds pos d) with
      | none =>
        have hcontra := List.find?_eq_none.mp hf d hd
        simp [hdp] at hcontra
      | some d' =>
        simp [determineStartPosition, hpos, hf]
    · intro hall
      have hf : displays.find? (fun d => posInsideDisplayBounds pos d) = none :=
        List.find?_eq_none.mpr (fun x hx => by simp [hall x hx])
      simp [determineStartPosition, hpos, hf]
  · intro h
    simp [determineStartPosition, h]
  · have hpos : ((SET_WINDOW_POSITION s key none).winProps key).position = none :=
      winProps_SET_WINDOW_POSITION_self s key none
    simp [determineStartPosition, hpos, SET_WINDOW_POSITION_idem]

/-! ### Claim C8 -/

theorem winProps_SET_WINDOW_ID_ne (s : GameOverlayState) (k k' : OverlayKey)
    (n : Int) (h : k ≠ k') :
    (SET_WINDOW_ID s k' n).winProps k = s.winProps k :=
  winProps_setWinProps_ne s k k' _ h

/-- C8: when the compositor registration returns an invalid surface id
(null or -1) for some window, createWindowOverlays raises the fatal error
and no window after it in that pass is registered: no later addHWND call
appears in the effect trace and no later key's stored window properties are
touched. -/
theorem C8_invalid_id_aborts (ids : OverlayKey → Option Int)
    (winPos : OverlayKey → IVec2) (winSize : OverlayKey → WinSize)
    (pre : List OverlayKey) (bad : OverlayKey) (rest : List OverlayKey)
    (s : GameOverlayState)
    (hpre : ∀ k ∈ pre, validOverlayId (ids k) = true)
    (hbad : validOverlayId (ids bad) = false)
    (hnodup : (pre ++ bad :: rest).Nodup) :
    (createWindowOverlays ids winPos winSize (pre ++ bad :: rest) s).2.2 =
      some "Error creating overlay" ∧
    (∀ k ∈ rest, Effect.compositor (CompositorCall.addHWND k) ∉
      (createWindowOverlays ids winPos winSize (pre ++ bad :: rest) s).2.1) ∧
    (∀ k ∈ rest,
      (createWindowOverlays ids winPos winSize (pre ++ bad :: rest) s).1.winProps k =
        s.winProps k) := by
  induction pre generalizing s with
  | nil =>
    have hbadrest : bad ∉ rest := by
      simpa using (List.nodup_cons.mp (by simpa using hnodup)).1
    have hres : createWindowOverlays ids winPos winSize ([] ++ bad :: rest) s =
        (s, [Effect.compositor (CompositorCall.addHWND bad)],
          some "Error creating overlay") := by
      cases hid : ids bad with
      | none => simp [createWindowOverlays, hid]
      | some n =>
        have hn : (n == -1) = true := by
          have := hbad
          rw [hid] at this
          simpa [validOverlayId] using this
        simp [createWindowOverlays, hid, hn]
    rw [hres]
    refine ⟨rfl, ?_, fun k _ => rfl⟩
    intro k hk
    have hkb : k ≠ bad := fun h => hbadrest (h ▸ hk)
    simp [hkb]
  | cons p pre' ih =>
    have hvp : validOverlayId (ids p) = true := hpre p (List.mem_cons_self p _)
    have hnodup2 : (p :: (pre' ++ bad :: rest)).Nodup := by
      rw [List.cons_append] at hnodup
      exact hnodup
    have hnd := List.nodup_cons.mp hnodup2
    have hpmem : p ∉ pre' ++ bad :: rest := hnd.1
    have hnodup' : (pre' ++ bad :: rest).Nodup := hnd.2
    cases hid : ids p with
    | none =>
      rw [hid] at hvp
      simp [validOverlayId] at hvp
    | some n =>
      have hn : (n == -1) = false := by
        rw [hid] at hvp
        simpa [validOverlayId] using hvp
      have ihres := ih (SET_WINDOW_ID s p n)
        (fun k hk => hpre k (List.mem_cons_of_mem p hk)) hnodup'
      have hkp : ∀ k ∈ rest, k ≠ p := by
        intro k hk h
        exact hpmem (h ▸ List.mem_append_right pre' (List.mem_cons_of_mem bad hk))
      refine ⟨?_, ?_, ?_⟩
      · simpa [createWindowOverlays, hid, hn] using ihres.1
      · intro k hk
        have h1 := ihres.2.1 k hk
        have h2 := hkp k hk
        simp only [List.cons_append, createWindowOverlays, hid, hn]
        simp [h1, h2]
      · intro k hk
        have h1 := ihres.2.2 k hk
        have h2 := winProps_SET_WINDOW_ID_ne s k p n (hkp k hk)
        simp only [List.cons_append, createWindowOverlays, hid, hn]
        simpa [h2] using h1

/-- C8 witness: a pass over [recentEvents, chat] in which the compositor
returns -1 for recentEvents: the error is raised, chat is never registered
and its stored properties are untouched. -/
theorem C8_invalid_id_aborts_witness :
    (createWindowOverlays
        (fun k => if k == OverlayKey.recentEvents then some (-1) else some 5)
        (fun _ => { x := 0, y := 0 }) (fun _ => { width := 600, height := 300 })
        ([] ++ OverlayKey.recentEvents :: [OverlayKey.chat]) defaultState).2.2 =
      some "Error creating overlay" ∧
    (∀ k ∈ [OverlayKey.chat], Effect.compositor (CompositorCall.addHWND k) ∉
      (createWindowOverlays
        (fun k => if k == OverlayKey.recentEvents then some (-1) else some 5)
        (fun _ => { x := 0, y := 0 }) (fun _ => { width := 600, height := 300 })
        ([] ++ OverlayKey.recentEvents :: [OverlayKey.chat]) defaultState).2.1) ∧
    (∀ k ∈ [OverlayKey.chat],
      (createWindowOverlays
        (fun k => if k == OverlayKey.recentEvents then some (-1) else some 5)
        (fun _ => { x := 0, y := 0 }) (fun _ => { width := 600, height := 300 })
        ([] ++ OverlayKey.recentEvents :: [OverlayKey.chat]) defaultState).1.winProps k =
        defaultState.winProps k) :=
  C8_invalid_id_aborts
    (fun k => if k == OverlayKey.recentEvents then some (-1) else some 5)
    (fun _ => { x := 0, y := 0 }) (fun _ => { width := 600, height := 300 })
    [] OverlayKey.recentEvents [OverlayKey.chat] defaultState
    (by intro k hk; simp at hk) (by decide) (by decide)

end GameOverlay
